import Mathlib

/-!
Verification development for the andes device-model core
(`src/andes/models/governor.py` and `src/andes/models/pss/stab2a.py`).

Machine values are embedded as rationals; the per-instance vectorized
cvxopt operations (`mul`, `div`) act elementwise, so a single device
instance is embedded with scalar fields.  The shared DAE vectors are
total functions from slot indices to rationals, written with
`Function.update` exactly where the source writes a slot.
-/

namespace Andes

/-- The shared DAE workspace passed to every lifecycle callback:
state vector `x`, algebraic vector `y`, differential residual
accumulator `f` and algebraic residual accumulator `g`. -/
structure Dae where
  x : Nat → ℚ
  y : Nat → ℚ
  f : Nat → ℚ
  g : Nat → ℚ

/-- Elementwise division as used through cvxopt `div`; a zero
denominator has no rational value (the source would divide by zero
there), so the result is `none` in that case. -/
def div? (a b : ℚ) : Option ℚ := if b = 0 then none else some (a / b)

theorem div?_eq_some {b : ℚ} (a : ℚ) (hb : b ≠ 0) : div? a b = some (a / b) := by
  simp [div?, hb]

/-- Modelled from the spec: `algeb_limiter` (from `andes.utils.math`,
not under `src/`) clamps its input into `[lower, upper]` — the
"same limiter policy" applied to `pin` and to TG2's output. -/
def algeb_limiter (v lower upper : ℚ) : ℚ :=
  if v < lower then lower else if v > upper then upper else v

theorem algeb_limiter_of_mem {v lower upper : ℚ} (h1 : lower ≤ v) (h2 : v ≤ upper) :
    algeb_limiter v lower upper = v := by
  simp only [algeb_limiter]
  split_ifs with hl hu
  · linarith
  · linarith
  · rfl

/-- Modelled from the spec: `limit_check` (from `ModelBase`, not under
`src/`): a value outside its declared range is clamped to the nearest
bound and a warning is surfaced (`true` in the second component);
initialization does not abort. -/
def limit_check (v lower upper : ℚ) : ℚ × Bool :=
  if v < lower then (lower, true)
  else if v > upper then (upper, true)
  else (v, false)

theorem limit_check_mem {lower upper : ℚ} (v : ℚ) (h : lower ≤ upper) :
    lower ≤ (limit_check v lower upper).1 ∧ (limit_check v lower upper).1 ≤ upper := by
  simp only [limit_check]
  split_ifs with hl hu
  · exact ⟨le_refl _, h⟩
  · exact ⟨h, le_refl _⟩
  · exact ⟨by linarith, by linarith⟩

/-- Per-instance data of `GovernorBase`: the declared parameters
(`pmax`, `pmin`, `R`, `wref0`, plus the `ModelBase` connectivity status
`u`), the slot indices of the owned algebraic variables `wref` and
`pout`, the indices `omega` and `pm` copied from the referenced
`Synchronous` generator, and the service variables `pm0`, `gain`,
`pin`. -/
structure GovBase where
  pmax : ℚ
  pmin : ℚ
  R : ℚ
  wref0 : ℚ
  u : ℚ
  wref : Nat
  pout : Nat
  omega : Nat
  pm : Nat
  Sn : ℚ
  pm0 : ℚ
  gain : ℚ
  pin : ℚ

/-- The values and indices `copy_param` fetches from the referenced
`Synchronous` generator during `init1`. -/
structure SynRef where
  Sn : ℚ
  pm0 : ℚ
  omega : Nat
  pm : Nat

/-- `GovernorBase.init1`: compute `gain = 1/R`, copy `Sn`, `pm0`,
`omega`, `pm` from the referenced generator, clamp `pm0` into
`[pmin, pmax]` via `limit_check`, and write `wref0` and the clamped
`pm0` into the `wref` and `pout` slots of the algebraic vector.
Returns the updated instance, the updated workspace and the
`limit_check` warning flag; `none` when the `gain` division has a
zero denominator. -/
def GovernorBase.init1 (s : GovBase) (syn : SynRef) (dae : Dae) :
    Option (GovBase × Dae × Bool) := do
  let gain ← div? 1 s.R
  let lc := limit_check syn.pm0 s.pmin s.pmax
  let s1 : GovBase :=
    { s with gain := gain, Sn := syn.Sn, pm0 := lc.1, omega := syn.omega, pm := syn.pm }
  let y1 := Function.update (Function.update dae.y s1.wref s1.wref0) s1.pout s1.pm0
  some (s1, { dae with y := y1 }, lc.2)

/-- `GovernorBase.gcall`: recompute the `pin` service from the current
speed deviation, add `pm0 - u*pout` into the referenced generator's
`pm` residual row, and set the owned `wref` residual row to
`y[wref] - wref0`. -/
def GovernorBase.gcall (s : GovBase) (dae : Dae) : GovBase × Dae :=
  let pin0 := s.pm0 + s.gain * (s.wref0 - dae.x s.omega)
  let s1 : GovBase := { s with pin := algeb_limiter pin0 s.pmin s.pmax }
  let g1 := Function.update dae.g s.pm (dae.g s.pm + (s.pm0 - s.u * dae.y s.pout))
  let g2 := Function.update g1 s.wref (dae.y s.wref - s.wref0)
  (s1, { dae with g := g2 })

/-- Sparse Jacobian blocks named in the source. -/
inductive JacMat
  | Fx0
  | Gx0
  | Gy0
deriving DecidableEq

/-- `GovernorBase.jac0`: the constant Jacobian triples registered by
the base class. -/
def GovernorBase.jac0 (s : GovBase) : List (JacMat × ℚ × Nat × Nat) :=
  [(JacMat.Gy0, -s.u, s.pm, s.pout),
   (JacMat.Gy0, 1, s.wref, s.wref)]

/-- Per-instance data of `TG1`: the base fields plus the parameters
`T3`, `T4`, `T5`, `Tc`, `Ts`, the services `iTs`, `iTc`, `iT5`,
`k1`..`k4`, and the slot indices of the states `xg1`, `xg2`, `xg3`. -/
structure TG1 extends GovBase where
  T3 : ℚ
  T4 : ℚ
  T5 : ℚ
  Tc : ℚ
  Ts : ℚ
  iTs : ℚ
  iTc : ℚ
  iT5 : ℚ
  k1 : ℚ
  k2 : ℚ
  k3 : ℚ
  k4 : ℚ
  xg1 : Nat
  xg2 : Nat
  xg3 : Nat

/-- `TG1.init1`: run the base `init1`, compute the reciprocal and split
services, and write the steady-state values `u*pm0`, `u*k2*pm0`,
`u*k4*pm0` into the `xg1`, `xg2`, `xg3` state slots. -/
def TG1.init1 (s : TG1) (syn : SynRef) (dae : Dae) : Option (TG1 × Dae × Bool) := do
  let (b, dae1, warn) ← GovernorBase.init1 s.toGovBase syn dae
  let iTs ← div? 1 s.Ts
  let iTc ← div? 1 s.Tc
  let iT5 ← div? 1 s.T5
  let k1 := s.T3 * iTc
  let k2 := 1 - k1
  let k3 := s.T4 * iT5
  let k4 := 1 - k3
  let s1 : TG1 :=
    { s with toGovBase := b, iTs := iTs, iTc := iTc, iT5 := iT5,
             k1 := k1, k2 := k2, k3 := k3, k4 := k4 }
  let x1 := Function.update (Function.update (Function.update dae1.x
              s1.xg1 (b.u * b.pm0))
              s1.xg2 (b.u * k2 * b.pm0))
              s1.xg3 (b.u * k4 * b.pm0)
  some (s1, { dae1 with x := x1 }, warn)

/-- The read `dae.y[self.pin]` from `TG1.fcall` (governor.py line 98):
the algebraic vector indexed with the float matrix held by the `pin`
service (`pin` is declared in `_service` and `gcall` stores the
clamped power value in it).  cvxopt matrix indexing accepts integer
index sets only and raises a TypeError for a float-matrix index,
whatever value it holds, so the read has no result. -/
def yIndexedByPin (_y : Nat → ℚ) (_pin : ℚ) : Option ℚ := none

/-- `TG1.fcall`: the three cascaded first-order state derivatives as
the source writes them.  `super().fcall` resolves to the `ModelBase`
default (not under `src/`), which contributes nothing.  The `xg1`
derivative reads its valve input as `dae.y[self.pin]`
(see `yIndexedByPin`), which raises in cvxopt, so the whole call is
fallible — and in fact never produces its contributions. -/
def TG1.fcall (s : TG1) (dae : Dae) : Option Dae :=
  (yIndexedByPin dae.y s.pin).map fun pinRead =>
    let f1 := Function.update dae.f s.xg1 (s.u * (pinRead - dae.x s.xg1) * s.iTs)
    let f2 := Function.update f1 s.xg2
                (s.u * ((1 - s.k1) * dae.x s.xg1 - dae.x s.xg2) * s.iTc)
    let f3 := Function.update f2 s.xg3
                (s.u * ((1 - s.k3) * (dae.x s.xg2 + s.k1 * dae.x s.xg1) - dae.x s.xg3) * s.iT5)
    { dae with f := f3 }

/-- `TG1.gcall`: run the base `gcall`, then set the owned `pout`
residual row to `xg3 + k3*(xg2 + k1*xg1) - y[pout]`. -/
def TG1.gcall (s : TG1) (dae : Dae) : TG1 × Dae :=
  let (b, dae1) := GovernorBase.gcall s.toGovBase dae
  let g1 := Function.update dae1.g s.pout
              (dae1.x s.xg3 + s.k3 * (dae1.x s.xg2 + s.k1 * dae1.x s.xg1) - dae1.y s.pout)
  ({ s with toGovBase := b }, { dae1 with g := g1 })

/-- Per-instance data of `TG2`: the base fields plus the parameters
`T1`, `T2`, the services `T12`, `iT2`, and the slot index of the
state `xg`. -/
structure TG2 extends GovBase where
  T1 : ℚ
  T2 : ℚ
  T12 : ℚ
  iT2 : ℚ
  xg : Nat

/-- `TG2.init1`: run the base `init1`, compute `T12 = T1/T2` and
`iT2 = 1/T2`, and zero the `xg` state slot. -/
def TG2.init1 (s : TG2) (syn : SynRef) (dae : Dae) : Option (TG2 × Dae × Bool) := do
  let (b, dae1, warn) ← GovernorBase.init1 s.toGovBase syn dae
  let T12 ← div? s.T1 s.T2
  let iT2 ← div? 1 s.T2
  let s1 : TG2 := { s with toGovBase := b, T12 := T12, iT2 := iT2 }
  some (s1, { dae1 with x := Function.update dae1.x s1.xg 0 }, warn)

/-- `TG2.fcall`: the single first-order state derivative
`iT2 * (gain*(1-T12)*(wref0 - omega) - xg)`. -/
def TG2.fcall (s : TG2) (dae : Dae) : Dae :=
  let f1 := Function.update dae.f s.xg
      (s.iT2 * (s.gain * (1 - s.T12) * (s.wref0 - dae.x s.omega) - dae.x s.xg))
  { dae with f := f1 }

/-- `TG2.gcall`: run the base `gcall`, then set the owned `pout`
residual row to `algeb_limiter(xg + pm0 + gain*T12*(wref0 - omega)) - y[pout]`. -/
def TG2.gcall (s : TG2) (dae : Dae) : TG2 × Dae :=
  let (b, dae1) := GovernorBase.gcall s.toGovBase dae
  let pm := dae1.x s.xg + s.pm0 + s.gain * s.T12 * (s.wref0 - dae1.x s.omega)
  let g1 := Function.update dae1.g s.pout
              (algeb_limiter pm s.pmin s.pmax - dae1.y s.pout)
  ({ s with toGovBase := b }, { dae1 with g := g1 })

/-- `TG2.jac0`: the base entries followed by the five TG2-specific
constant Jacobian triples. -/
def TG2.jac0 (s : TG2) : List (JacMat × ℚ × Nat × Nat) :=
  GovernorBase.jac0 s.toGovBase ++
  [(JacMat.Fx0, -s.iT2, s.xg, s.xg),
   (JacMat.Fx0, -(s.iT2 * s.gain * (1 - s.T12)), s.xg, s.omega),
   (JacMat.Gx0, 1, s.pout, s.xg),
   (JacMat.Gx0, -(s.gain * s.T12), s.pout, s.omega),
   (JacMat.Gy0, -1, s.pout, s.pout)]

/-- TG2's differential residual for `xg` as a function of the two
variables it reads (its own state `xg` and the referenced `omega`). -/
def TG2.fres (s : TG2) (xg omega : ℚ) : ℚ :=
  s.iT2 * (s.gain * (1 - s.T12) * (s.wref0 - omega) - xg)

/-- TG2's algebraic residual for `pout` as a function of the three
variables it reads. -/
def TG2.gresPout (s : TG2) (xg omega pout : ℚ) : ℚ :=
  algeb_limiter (xg + s.pm0 + s.gain * s.T12 * (s.wref0 - omega)) s.pmin s.pmax - pout

/-- Initialization followed by evaluation of the owned residual rows:
the pair is (`pout`-row residual, `wref`-row residual) of `gcall`
evaluated at the state `init1` wrote. -/
def TG1.initGcallResidual (s : TG1) (syn : SynRef) (dae : Dae) : Option (ℚ × ℚ) :=
  (TG1.init1 s syn dae).map fun r =>
    ((TG1.gcall r.1 r.2.1).2.g r.1.pout, (TG1.gcall r.1 r.2.1).2.g r.1.wref)

/-- Initialization followed by evaluation of the owned residual rows
for `TG2`, as for `TG1`. -/
def TG2.initGcallResidual (s : TG2) (syn : SynRef) (dae : Dae) : Option (ℚ × ℚ) :=
  (TG2.init1 s syn dae).map fun r =>
    ((TG2.gcall r.1 r.2.1).2.g r.1.pout, (TG2.gcall r.1 r.2.1).2.g r.1.wref)

/-- Modelled from the spec: the setup-time validation that runs before
any `init1` (`ModelBase`/system setup, not under `src/`).  Per the
spec, the checks that abort setup before equation evaluation are a
missing mandatory parameter and a dangling cross-reference index;
`governor.py` declares `gen` and `R` mandatory, and the spec's design
notes record that invalid values such as `R = 0` are implied to fail
only by the downstream division inside `init1`, not by an explicit
setup guard. -/
def setupCheckGov (gen : Option Nat) (R : Option ℚ) (genExists : Nat → Bool) :
    Except String Unit :=
  match gen with
  | none => Except.error "missing mandatory parameter: gen"
  | some g =>
    if genExists g then
      match R with
      | none => Except.error "missing mandatory parameter: R"
      | some _ => Except.ok ()
    else Except.error "dangling cross-reference: gen"

/-- Modelled from the spec: the `Limiter` block's lower-bound flag
(`andes.core`, not under `src/`): active (value `1`) when the input is
below the lower bound. -/
def Limiter.zl (u lower upper : ℚ) : ℚ := if u < lower then 1 else 0

/-- Modelled from the spec: the `Limiter` block's upper-bound flag:
active (value `1`) when the input is above the upper bound. -/
def Limiter.zu (u lower upper : ℚ) : ℚ := if u > upper then 1 else 0

/-- Modelled from the spec: the `Limiter` block's within-limits flag:
active (value `1`) when the input lies between the bounds. -/
def Limiter.zi (u lower upper : ℚ) : ℚ :=
  if lower ≤ u ∧ u ≤ upper then 1 else 0

/-- The parameters of `STAB2A` used along its signal path, plus the
external service `SnSb`. -/
structure STAB2AParams where
  T2 : ℚ
  T3 : ℚ
  T5 : ℚ
  K2 : ℚ
  K3 : ℚ
  K4 : ℚ
  K5 : ℚ
  HLIM_MAX : ℚ
  HLIM_MIN : ℚ
  SnSb : ℚ

/-- One valuation of the `STAB2A` signals: the external input `te`,
the declared algebraic variables, the washout state `WO_x` and the
block outputs. -/
structure STAB2AVars where
  te : ℚ
  sig : ℚ
  PK2_y : ℚ
  WO_x : ℚ
  WO_y : ℚ
  V1 : ℚ
  PK4_y : ℚ
  V2_y : ℚ
  V3 : ℚ
  L1_y : ℚ
  V4 : ℚ
  vsout : ℚ

/-- Residual of `sig` (source: `sig.e_str = te/SnSb - sig`). -/
def STAB2A.sigRes (p : STAB2AParams) (v : STAB2AVars) : ℚ := v.te / p.SnSb - v.sig

/-- Residual of the `PK2` gain block output.  Modelled from the spec:
a Gain block is the pure algebraic relation output = K × input; here
input `sig`, gain `K2`. -/
def STAB2A.PK2Res (p : STAB2AParams) (v : STAB2AVars) : ℚ := p.K2 * v.sig - v.PK2_y

/-- Residual of the washout output.  Modelled from the spec: a Washout
block with state `x` has `dx/dt = (K*u - x)/T` and output `K*u - x`;
here (source `WO`) input `PK2_y`, `T = T2`, `K = T2`, `zero_out`
disabled. -/
def STAB2A.WOyRes (p : STAB2AParams) (v : STAB2AVars) : ℚ :=
  (p.T2 * v.PK2_y - v.WO_x) - v.WO_y

/-- Washout state derivative (spec-modelled as for `STAB2A.WOyRes`). -/
def STAB2A.WOxDot (p : STAB2AParams) (v : STAB2AVars) : ℚ :=
  (p.T2 * v.PK2_y - v.WO_x) / p.T2

/-- Residual of `V1` (source: `V1.e_str = WO_y**3 - V1`). -/
def STAB2A.V1Res (p : STAB2AParams) (v : STAB2AVars) : ℚ := v.WO_y ^ 3 - v.V1

/-- Residual of the `PK4` gain block output (gain `K4` on input `V1`). -/
def STAB2A.PK4Res (p : STAB2AParams) (v : STAB2AVars) : ℚ := p.K4 * v.V1 - v.PK4_y

/-- Derivative of the `V2` lag state.  Modelled from the spec: a Lag
block has `dx/dt = (K*u - x)/T` with output `x`; here (source `V2`)
input `V1`, `T = T3`, `K = K3`, output `V2_y`. -/
def STAB2A.V2Dot (p : STAB2AParams) (v : STAB2AVars) : ℚ :=
  (p.K3 * v.V1 - v.V2_y) / p.T3

/-- Residual of `V3` (source: `V3.e_str = PK4_y + V2_y - V3`). -/
def STAB2A.V3Res (p : STAB2AParams) (v : STAB2AVars) : ℚ := v.PK4_y + v.V2_y - v.V3

/-- Derivative of the `L1` lag state (source `L1`: input `V3`,
`T = T5`, `K = K5`, output `L1_y`; spec-modelled Lag equation). -/
def STAB2A.L1Dot (p : STAB2AParams) (v : STAB2AVars) : ℚ :=
  (p.K5 * v.V3 - v.L1_y) / p.T5

/-- Residual of `V4` (source: `V4.e_str = L1_y**2 - V4`). -/
def STAB2A.V4Res (p : STAB2AParams) (v : STAB2AVars) : ℚ := v.L1_y ^ 2 - v.V4

/-- Residual of `vsout` (source:
`vsout.e_str = HLIM_zi * V4 + HLIM_zu * HLIM_MAX + HLIM_zl * HLIM_MIN - vsout`,
with `HLIM` the limiter on input `V4` with bounds
`[HLIM_MIN, HLIM_MAX]`). -/
def STAB2A.vsoutRes (p : STAB2AParams) (v : STAB2AVars) : ℚ :=
  Limiter.zi v.V4 p.HLIM_MIN p.HLIM_MAX * v.V4 +
  Limiter.zu v.V4 p.HLIM_MIN p.HLIM_MAX * p.HLIM_MAX +
  Limiter.zl v.V4 p.HLIM_MIN p.HLIM_MAX * p.HLIM_MIN - v.vsout

/-- A valuation solves the `STAB2A` algebraic equations when every
owned algebraic residual vanishes. -/
def STAB2A.algebEqs (p : STAB2AParams) (v : STAB2AVars) : Prop :=
  STAB2A.sigRes p v = 0 ∧ STAB2A.PK2Res p v = 0 ∧ STAB2A.WOyRes p v = 0 ∧
  STAB2A.V1Res p v = 0 ∧ STAB2A.PK4Res p v = 0 ∧ STAB2A.V3Res p v = 0 ∧
  STAB2A.V4Res p v = 0 ∧ STAB2A.vsoutRes p v = 0

instance (p : STAB2AParams) (v : STAB2AVars) : Decidable (STAB2A.algebEqs p v) := by
  unfold STAB2A.algebEqs
  infer_instance

/-- A numeric parameter as constructed by `NumParam` (`andes.core`,
not under `src/`).  Modelled from the spec: a declared parameter
carries its input value `vin` and its bound value `v`, both holding
the declared value at construction. -/
structure NumParam where
  v : ℚ
  vin : ℚ

/-- `NumParam` construction with a declared value (spec-modelled). -/
def NumParam.make (d : ℚ) : NumParam := ⟨d, d⟩

/-- The two output-limit parameters of `STAB2AData`. -/
structure STAB2ALimits where
  HLIM_MAX : NumParam
  HLIM_MIN : NumParam

/-- The `STAB2AData` constructor steps for the output limits (source
lines 24-26): declare `HLIM_MAX` with value `0.3`, declare `HLIM_MIN`
(`hmin` stands for whatever value that declaration carries), then
overwrite `HLIM_MIN.vin` with `-1 * HLIM_MAX.v`. -/
def STAB2AData.mkLimits (hmin : ℚ) : STAB2ALimits :=
  let hmax := NumParam.make (3/10)
  let hmin0 := NumParam.make hmin
  let hmin1 : NumParam := { hmin0 with vin := -1 * hmax.v }
  ⟨hmax, hmin1⟩

/-! ### Concrete instances used by the claim theorems -/

/-- A `TG1` instance with the scenario-A parameters (`R = 0.05`,
`Ts = 0.1`, `Tc = 0.56`, `T3 = 0`, `T4 = 12`, `T5 = 50`), default
limits `[0, 1]`, `u = 1`, own algebraic slots `wref = 0`, `pout = 1`,
own state slots `xg1 = 0`, `xg2 = 1`, `xg3 = 2`.  Service fields are
zero before `init1` fills them. -/
def tg1C3 : TG1 :=
  { pmax := 1, pmin := 0, R := 1/20, wref0 := 1, u := 1,
    wref := 0, pout := 1, omega := 3, pm := 2, Sn := 0, pm0 := 0, gain := 0, pin := 0,
    T3 := 0, T4 := 12, T5 := 50, Tc := 14/25, Ts := 1/10,
    iTs := 0, iTc := 0, iT5 := 0, k1 := 0, k2 := 0, k3 := 0, k4 := 0,
    xg1 := 0, xg2 := 1, xg3 := 2 }

/-- A referenced generator at the steady state with `pm0 = 1.0`,
speed state at slot `3`, mechanical-power row at slot `2`. -/
def synC3 : SynRef := { Sn := 1, pm0 := 1, omega := 3, pm := 2 }

/-- A workspace whose speed state (slot `3`) holds the reference
speed `1`. -/
def daeC3 : Dae :=
  { x := fun i => if i = 3 then 1 else 0, y := fun _ => 0,
    f := fun _ => 0, g := fun _ => 0 }

/-- Claim C3: for a `TG1` governor with `R=0.05`, `Ts=0.1`, `Tc=0.56`,
`T3=0`, `T4=12`, `T5=50` and referenced `pm0 = 1.0` (with `u = 1`),
`init1` writes `xg1 = 1`, `xg2 = 1`, `xg3 = 0.76`, and evaluating
`gcall` at that initialized state leaves a zero residual in the `pout`
row (and in the `wref` row). -/
theorem tg1_scenarioA_init_values_and_residual :
    (TG1.init1 tg1C3 synC3 daeC3).map
      (fun r => (r.2.1.x r.1.xg1, r.2.1.x r.1.xg2, r.2.1.x r.1.xg3)) =
      some (1, 1, 19/25) ∧
    TG1.initGcallResidual tg1C3 synC3 daeC3 = some (0, 0) := by
  constructor
  · simp only [TG1.init1, GovernorBase.init1, div?, limit_check, tg1C3, synC3, daeC3]
    norm_num [Function.update]
  · simp only [TG1.initGcallResidual, TG1.init1, GovernorBase.init1, TG1.gcall,
      GovernorBase.gcall, div?, limit_check, algeb_limiter, tg1C3, synC3, daeC3]
    norm_num [Function.update]

/-- A `TG2` instance with limits `pmin = 0`, `pmax = 1`, `R = 0.05`,
`T1 = 0.2`, `T2 = 10`, own algebraic slots `wref = 0`, `pout = 1`,
state slot `xg = 0`. -/
def tg2C5 : TG2 :=
  { pmax := 1, pmin := 0, R := 1/20, wref0 := 1, u := 1,
    wref := 0, pout := 1, omega := 1, pm := 2, Sn := 0, pm0 := 0, gain := 0, pin := 0,
    T1 := 1/5, T2 := 10, T12 := 0, iT2 := 0, xg := 0 }

/-- A referenced generator whose steady-state mechanical power
`pm0 = 1.05` exceeds the governor's `pmax = 1`. -/
def synC5 : SynRef := { Sn := 1, pm0 := 21/20, omega := 1, pm := 2 }

/-- A workspace whose speed state (slot `1`) holds the reference
speed `1`. -/
def daeC5 : Dae :=
  { x := fun i => if i = 1 then 1 else 0, y := fun _ => 0,
    f := fun _ => 0, g := fun _ => 0 }

/-- Claim C5: for a `TG2` governor with `pmin = 0`, `pmax = 1` and
referenced steady-state `pm0 = 1.05`, the `limit_check` at `init1`
clamps `pm0` to `1` and surfaces the range-violation warning, and
initialization completes (no fatal error): `init1` returns a result
whose `pout` slot holds the clamped value `1` and whose warning flag
is `true`. -/
theorem tg2_scenarioB_limit_check_clamps_warns :
    limit_check (21/20) 0 1 = (1, true) ∧
    (TG2.init1 tg2C5 synC5 daeC5).map (fun r => (r.2.1.y r.1.pout, r.2.2)) =
      some (1, true) := by
  constructor
  · norm_num [limit_check]
  · simp only [TG2.init1, GovernorBase.init1, div?, limit_check, tg2C5, synC5, daeC5]
    norm_num [Function.update]

/-- Claim C4 counterexample: a governor instance with `R = 0` supplied
passes the setup-time validation — setup reports no fatal error before
`init1`, refuting the claim that `R = 0` is rejected at setup. -/
theorem gov_R_zero_setup_not_rejected :
    setupCheckGov (some 0) (some 0) (fun _ => true) = Except.ok () := rfl

/-- Claim C4 (amended): a governor instance with `R = 0` passes the
setup-time checks (the only mandatory-parameter requirement on `R` is
presence), so no fatal setup error precedes `init1`; the
division-by-zero is instead reached inside `init1`, whose `gain = 1/R`
computation has a zero denominator and hence no value. -/
theorem gov_R_zero_passes_setup_div_inside_init1
    (s : GovBase) (syn : SynRef) (dae : Dae) (g : Nat) (ex : Nat → Bool)
    (hex : ex g = true) (hR : s.R = 0) :
    setupCheckGov (some g) (some s.R) ex = Except.ok () ∧
    GovernorBase.init1 s syn dae = none := by
  constructor
  · simp [setupCheckGov, hex]
  · simp [GovernorBase.init1, div?, hR]

/-- A governor base instance whose droop `R` is zero. -/
def govRZero : GovBase :=
  { pmax := 1, pmin := 0, R := 0, wref0 := 1, u := 1,
    wref := 0, pout := 1, omega := 1, pm := 2, Sn := 0, pm0 := 0, gain := 0, pin := 0 }

/-- Witness for the amended claim C4 at a concrete instance. -/
theorem gov_R_zero_passes_setup_div_inside_init1_witness :
    setupCheckGov (some 0) (some govRZero.R) (fun _ => true) = Except.ok () ∧
    GovernorBase.init1 govRZero synC5 daeC5 = none :=
  gov_R_zero_passes_setup_div_inside_init1 govRZero synC5 daeC5 0 (fun _ => true) rfl rfl

/-- Claim C10: constructing `STAB2AData` always overwrites
`HLIM_MIN.vin` with `-1` times the construction-time `HLIM_MAX.v`,
whatever value `HLIM_MIN` carried: after construction
`HLIM_MIN.vin = -HLIM_MAX.v = -0.3`. -/
theorem stab2a_hlim_min_vin_overwritten (hmin : ℚ) :
    (STAB2AData.mkLimits hmin).HLIM_MIN.vin =
      -((STAB2AData.mkLimits hmin).HLIM_MAX.v) ∧
    (STAB2AData.mkLimits hmin).HLIM_MIN.vin = -(3/10) := by
  constructor <;> norm_num [STAB2AData.mkLimits, NumParam.make]

/-- Claim C6: for any limiter input, exactly one of the flags
`zl`, `zi`, `zu` is active (each is `0` or `1` and they sum to `1`),
and the flag-selected combination — as in `STAB2A`'s `vsout` equation
`HLIM_zi*V4 + HLIM_zu*HLIM_MAX + HLIM_zl*HLIM_MIN` — equals the input
when `zi` is active, the upper bound when `zu` is active and the lower
bound when `zl` is active. -/
theorem limiter_flags_exclusive_select :
    (∀ u lo hi : ℚ, lo ≤ hi →
      (Limiter.zl u lo hi = 0 ∨ Limiter.zl u lo hi = 1) ∧
      (Limiter.zi u lo hi = 0 ∨ Limiter.zi u lo hi = 1) ∧
      (Limiter.zu u lo hi = 0 ∨ Limiter.zu u lo hi = 1) ∧
      Limiter.zl u lo hi + Limiter.zi u lo hi + Limiter.zu u lo hi = 1 ∧
      (Limiter.zi u lo hi = 1 →
        Limiter.zi u lo hi * u + Limiter.zu u lo hi * hi + Limiter.zl u lo hi * lo = u) ∧
      (Limiter.zu u lo hi = 1 →
        Limiter.zi u lo hi * u + Limiter.zu u lo hi * hi + Limiter.zl u lo hi * lo = hi) ∧
      (Limiter.zl u lo hi = 1 →
        Limiter.zi u lo hi * u + Limiter.zu u lo hi * hi + Limiter.zl u lo hi * lo = lo)) ∧
    (∀ (p : STAB2AParams) (v : STAB2AVars), p.HLIM_MIN ≤ p.HLIM_MAX →
      STAB2A.vsoutRes p v = 0 →
      (Limiter.zi v.V4 p.HLIM_MIN p.HLIM_MAX = 1 → v.vsout = v.V4) ∧
      (Limiter.zu v.V4 p.HLIM_MIN p.HLIM_MAX = 1 → v.vsout = p.HLIM_MAX) ∧
      (Limiter.zl v.V4 p.HLIM_MIN p.HLIM_MAX = 1 → v.vsout = p.HLIM_MIN)) := by
  have key : ∀ u lo hi : ℚ, lo ≤ hi →
      (Limiter.zl u lo hi = 0 ∨ Limiter.zl u lo hi = 1) ∧
      (Limiter.zi u lo hi = 0 ∨ Limiter.zi u lo hi = 1) ∧
      (Limiter.zu u lo hi = 0 ∨ Limiter.zu u lo hi = 1) ∧
      Limiter.zl u lo hi + Limiter.zi u lo hi + Limiter.zu u lo hi = 1 ∧
      (Limiter.zi u lo hi = 1 →
        Limiter.zi u lo hi * u + Limiter.zu u lo hi * hi + Limiter.zl u lo hi * lo = u) ∧
      (Limiter.zu u lo hi = 1 →
        Limiter.zi u lo hi * u + Limiter.zu u lo hi * hi + Limiter.zl u lo hi * lo = hi) ∧
      (Limiter.zl u lo hi = 1 →
        Limiter.zi u lo hi * u + Limiter.zu u lo hi * hi + Limiter.zl u lo hi * lo = lo) := by
    intro u lo hi h
    by_cases h1 : u < lo
    · have h2 : ¬ u > hi := by linarith
      have h3 : ¬ (lo ≤ u ∧ u ≤ hi) := by rintro ⟨ha, hb⟩; linarith
      simp only [Limiter.zl, Limiter.zi, Limiter.zu, if_pos h1, if_neg h2, if_neg h3]
      norm_num
    · by_cases h2 : u > hi
      · have h3 : ¬ (lo ≤ u ∧ u ≤ hi) := by rintro ⟨ha, hb⟩; linarith
        simp only [Limiter.zl, Limiter.zi, Limiter.zu, if_neg h1, if_pos h2, if_neg h3]
        norm_num
      · have h3 : lo ≤ u ∧ u ≤ hi := ⟨by linarith, by linarith⟩
        simp only [Limiter.zl, Limiter.zi, Limiter.zu, if_neg h1, if_neg h2, if_pos h3]
        norm_num
  refine ⟨key, ?_⟩
  intro p v hlim hres
  have hz := key v.V4 p.HLIM_MIN p.HLIM_MAX hlim
  have hv : v.vsout =
      Limiter.zi v.V4 p.HLIM_MIN p.HLIM_MAX * v.V4 +
      Limiter.zu v.V4 p.HLIM_MIN p.HLIM_MAX * p.HLIM_MAX +
      Limiter.zl v.V4 p.HLIM_MIN p.HLIM_MAX * p.HLIM_MIN := by
    have := hres
    simp only [STAB2A.vsoutRes] at this
    linarith
  exact ⟨fun h1 => by rw [hv]; exact hz.2.2.2.2.1 h1,
         fun h1 => by rw [hv]; exact hz.2.2.2.2.2.1 h1,
         fun h1 => by rw [hv]; exact hz.2.2.2.2.2.2 h1⟩

/-- Witness for claim C6 at the input `2` with bounds `[-1, 1]` (the
upper flag is active) and at a concrete `STAB2A` valuation. -/
theorem limiter_flags_exclusive_select_witness :
    ((Limiter.zl 2 (-1) 1 = 0 ∨ Limiter.zl 2 (-1) 1 = 1) ∧
     (Limiter.zi 2 (-1) 1 = 0 ∨ Limiter.zi 2 (-1) 1 = 1) ∧
     (Limiter.zu 2 (-1) 1 = 0 ∨ Limiter.zu 2 (-1) 1 = 1) ∧
     Limiter.zl 2 (-1) 1 + Limiter.zi 2 (-1) 1 + Limiter.zu 2 (-1) 1 = 1 ∧
     (Limiter.zi 2 (-1) 1 = 1 →
       Limiter.zi 2 (-1) 1 * 2 + Limiter.zu 2 (-1) 1 * 1 + Limiter.zl 2 (-1) 1 * (-1) = 2) ∧
     (Limiter.zu 2 (-1) 1 = 1 →
       Limiter.zi 2 (-1) 1 * 2 + Limiter.zu 2 (-1) 1 * 1 + Limiter.zl 2 (-1) 1 * (-1) = 1) ∧
     (Limiter.zl 2 (-1) 1 = 1 →
       Limiter.zi 2 (-1) 1 * 2 + Limiter.zu 2 (-1) 1 * 1 + Limiter.zl 2 (-1) 1 * (-1) = -1)) :=
  limiter_flags_exclusive_select.1 2 (-1) 1 (by norm_num)

/-- Claim C2: the base `gcall` adds `pm0 - u*pout` into the referenced
generator's `pm` residual row (it does not overwrite it), and two
governor instances writing the same `pm` row produce the same total
residual in that row in either evaluation order. -/
theorem gov_gcall_pm_row_additive_commutes
    (s1 s2 : GovBase) (dae : Dae) (r : Nat)
    (h1 : s1.pm = r) (h2 : s2.pm = r) (hw1 : s1.wref ≠ r) (hw2 : s2.wref ≠ r) :
    (GovernorBase.gcall s1 dae).2.g r = dae.g r + (s1.pm0 - s1.u * dae.y s1.pout) ∧
    (GovernorBase.gcall s2 (GovernorBase.gcall s1 dae).2).2.g r =
      dae.g r + (s1.pm0 - s1.u * dae.y s1.pout) + (s2.pm0 - s2.u * dae.y s2.pout) ∧
    (GovernorBase.gcall s2 (GovernorBase.gcall s1 dae).2).2.g r =
      (GovernorBase.gcall s1 (GovernorBase.gcall s2 dae).2).2.g r := by
  subst h1
  have e1 : s1.pm ≠ s1.wref := Ne.symm hw1
  have e2 : s1.pm ≠ s2.wref := Ne.symm hw2
  refine ⟨?_, ?_, ?_⟩ <;>
    · simp only [GovernorBase.gcall, Function.update_apply, h2]
      simp [e1, e2]
      try ring

/-- Witness for claim C2: two concrete governor instances sharing the
generator row `2`. -/
theorem gov_gcall_pm_row_additive_commutes_witness :
    (GovernorBase.gcall govRZero daeC5).2.g 2 =
      daeC5.g 2 + (govRZero.pm0 - govRZero.u * daeC5.y govRZero.pout) ∧
    (GovernorBase.gcall tg2C5.toGovBase (GovernorBase.gcall govRZero daeC5).2).2.g 2 =
      daeC5.g 2 + (govRZero.pm0 - govRZero.u * daeC5.y govRZero.pout) +
        (tg2C5.pm0 - tg2C5.u * daeC5.y tg2C5.pout) ∧
    (GovernorBase.gcall tg2C5.toGovBase (GovernorBase.gcall govRZero daeC5).2).2.g 2 =
      (GovernorBase.gcall govRZero (GovernorBase.gcall tg2C5.toGovBase daeC5).2).2.g 2 :=
  gov_gcall_pm_row_additive_commutes govRZero tg2C5.toGovBase daeC5 2
    rfl rfl (by decide) (by decide)

/-- Claim C1 (amended): for a *connected* governor instance (`TG1`
with `u = 1`; `TG2`'s `pout` equation is `u`-independent) whose
initialization succeeds, evaluating `gcall` immediately at the state
`init1` wrote leaves a residual of exactly zero in both the `pout` row
and the `wref` row.  For `TG2` the referenced speed state must hold
the reference speed `wref0` (the assumed steady-state operating point)
and the limits must be well ordered; slot indices of distinct
variables are distinct, as the offset-allocation service
guarantees. -/
theorem tg_init_gcall_residual_zero :
    (∀ (s : TG1) (syn : SynRef) (dae : Dae),
      s.u = 1 → s.R ≠ 0 → s.Ts ≠ 0 → s.Tc ≠ 0 → s.T5 ≠ 0 →
      s.wref ≠ s.pout → s.xg1 ≠ s.xg2 → s.xg1 ≠ s.xg3 → s.xg2 ≠ s.xg3 →
      TG1.initGcallResidual s syn dae = some (0, 0)) ∧
    (∀ (s : TG2) (syn : SynRef) (dae : Dae),
      s.R ≠ 0 → s.T2 ≠ 0 → s.wref ≠ s.pout → s.xg ≠ syn.omega →
      dae.x syn.omega = s.wref0 → s.pmin ≤ s.pmax →
      TG2.initGcallResidual s syn dae = some (0, 0)) := by
  constructor
  · intro s syn dae hu hR hTs hTc hT5 hwp h12 h13 h23
    have e1 : s.pout ≠ s.wref := Ne.symm hwp
    have e31 : s.xg3 ≠ s.xg1 := Ne.symm h13
    have e21 : s.xg2 ≠ s.xg1 := Ne.symm h12
    have e32 : s.xg3 ≠ s.xg2 := Ne.symm h23
    simp only [TG1.initGcallResidual, TG1.init1, GovernorBase.init1,
      div?_eq_some 1 hR, div?_eq_some 1 hTs, div?_eq_some 1 hTc, div?_eq_some 1 hT5]
    simp [TG1.gcall, GovernorBase.gcall, Function.update_apply,
      hu, e1, e31, e21, e32, h12, h13, h23, hwp]
    ring
  · intro s syn dae hR hT2 hwp hxo hxval hlim
    have e1 : s.pout ≠ s.wref := Ne.symm hwp
    have hox : syn.omega ≠ s.xg := Ne.symm hxo
    have hmem := limit_check_mem syn.pm0 hlim
    simp only [TG2.initGcallResidual, TG2.init1, GovernorBase.init1,
      div?_eq_some 1 hR, div?_eq_some s.T1 hT2, div?_eq_some 1 hT2]
    simp [TG2.gcall, GovernorBase.gcall, Function.update_apply,
      e1, hwp, hxo, hox, hxval]
    rw [algeb_limiter_of_mem hmem.1 hmem.2]
    ring

/-- The scenario-A instance disconnected: `u = 0`. -/
def tg1C1u0 : TG1 := { tg1C3 with u := 0 }

/-- Claim C1 counterexample: for a disconnected `TG1` instance
(`u = 0`), `init1` zeroes the cascade states (`xg1 = u*pm0 = 0`, …)
but still writes `y[pout] = pm0 = 1`, so evaluating `gcall`
immediately after `init1` leaves a `pout`-row residual of `-1`, not
`0` — the claim fails for this governor instance. -/
theorem tg1_disconnected_init_residual_nonzero :
    TG1.initGcallResidual tg1C1u0 synC3 daeC3 = some (-1, 0) := by
  simp only [TG1.initGcallResidual, TG1.init1, GovernorBase.init1, TG1.gcall,
    GovernorBase.gcall, div?, limit_check, algeb_limiter, tg1C1u0, tg1C3, synC3, daeC3]
  norm_num [Function.update]

/-- Witness for claim C1 (as amended to connected instances) at the
concrete scenario instances. -/
theorem tg_init_gcall_residual_zero_witness :
    TG1.initGcallResidual tg1C3 synC3 daeC3 = some (0, 0) ∧
    TG2.initGcallResidual tg2C5 synC5 daeC5 = some (0, 0) :=
  ⟨tg_init_gcall_residual_zero.1 tg1C3 synC3 daeC3 rfl (by norm_num [tg1C3])
      (by norm_num [tg1C3]) (by norm_num [tg1C3]) (by norm_num [tg1C3])
      (by decide) (by decide) (by decide) (by decide),
   tg_init_gcall_residual_zero.2 tg2C5 synC5 daeC5 (by norm_num [tg2C5])
      (by norm_num [tg2C5]) (by decide) (by decide) rfl (by norm_num [tg2C5])⟩

/-- Claim C7: at any valuation solving the `STAB2A` algebraic
equations, the signal path holds in the stated order: the input signal
is the electrical power scaled to system base (`sig = te/SnSb`), then
gain `K2`, then the washout, then the cubic nonlinearity
(`V1 = WO_y^3`), then `V3 = lag(V1) + K4*V1` where the lag has gain
`K3` and time constant `T3` (at a lag equilibrium `V2_y = K3*V1`),
then the second lag (`T5`, `K5`; at its equilibrium `L1_y = K5*V3`),
then the squared nonlinearity (`V4 = L1_y^2`), and finally the output
limiter produces `vsout`. -/
theorem stab2a_signal_path_chain (p : STAB2AParams) (v : STAB2AVars)
    (h : STAB2A.algebEqs p v) (hlim : p.HLIM_MIN ≤ p.HLIM_MAX) :
    v.sig = v.te / p.SnSb ∧
    v.PK2_y = p.K2 * v.sig ∧
    v.WO_y = p.T2 * v.PK2_y - v.WO_x ∧
    v.V1 = v.WO_y ^ 3 ∧
    v.PK4_y = p.K4 * v.V1 ∧
    v.V3 = v.V2_y + p.K4 * v.V1 ∧
    (p.T3 ≠ 0 → STAB2A.V2Dot p v = 0 → v.V2_y = p.K3 * v.V1) ∧
    (p.T5 ≠ 0 → STAB2A.L1Dot p v = 0 → v.L1_y = p.K5 * v.V3) ∧
    v.V4 = v.L1_y ^ 2 ∧
    v.vsout = algeb_limiter v.V4 p.HLIM_MIN p.HLIM_MAX := by
  obtain ⟨h1, h2, h3, h4, h5, h6, h7, h8⟩ := h
  simp only [STAB2A.sigRes, STAB2A.PK2Res, STAB2A.WOyRes, STAB2A.V1Res,
    STAB2A.PK4Res, STAB2A.V3Res, STAB2A.V4Res, STAB2A.vsoutRes] at h1 h2 h3 h4 h5 h6 h7 h8
  refine ⟨by linarith, by linarith, by linarith, by linarith, by linarith, by linarith,
    ?_, ?_, by linarith, ?_⟩
  · intro hT3 hd
    simp only [STAB2A.V2Dot, div_eq_zero_iff, hT3, or_false] at hd
    linarith
  · intro hT5 hd
    simp only [STAB2A.L1Dot, div_eq_zero_iff, hT5, or_false] at hd
    linarith
  · have hv : v.vsout =
        Limiter.zi v.V4 p.HLIM_MIN p.HLIM_MAX * v.V4 +
        Limiter.zu v.V4 p.HLIM_MIN p.HLIM_MAX * p.HLIM_MAX +
        Limiter.zl v.V4 p.HLIM_MIN p.HLIM_MAX * p.HLIM_MIN := by linarith
    rw [hv]
    simp only [Limiter.zl, Limiter.zi, Limiter.zu, algeb_limiter]
    by_cases c1 : v.V4 < p.HLIM_MIN
    · have c2 : ¬ v.V4 > p.HLIM_MAX := by linarith
      have c3 : ¬ (p.HLIM_MIN ≤ v.V4 ∧ v.V4 ≤ p.HLIM_MAX) := by rintro ⟨a, b⟩; linarith
      simp [c1, c2, c3]
    · by_cases c2 : v.V4 > p.HLIM_MAX
      · have c3 : ¬ (p.HLIM_MIN ≤ v.V4 ∧ v.V4 ≤ p.HLIM_MAX) := by rintro ⟨a, b⟩; linarith
        simp [c1, c2, c3]
      · have c3 : p.HLIM_MIN ≤ v.V4 ∧ v.V4 ≤ p.HLIM_MAX := ⟨by linarith, by linarith⟩
        simp [c1, c2, c3]

/-- A `STAB2A` parameter set with unit gains and time constants and
output limits `[-1, 1]`. -/
def pC7 : STAB2AParams :=
  { T2 := 1, T3 := 1, T5 := 1, K2 := 1, K3 := 1, K4 := 1, K5 := 1,
    HLIM_MAX := 1, HLIM_MIN := -1, SnSb := 1 }

/-- A valuation solving the `STAB2A` algebraic equations for `pC7`. -/
def vC7 : STAB2AVars :=
  { te := 1, sig := 1, PK2_y := 1, WO_x := 0, WO_y := 1, V1 := 1, PK4_y := 1,
    V2_y := 0, V3 := 1, L1_y := 0, V4 := 0, vsout := 0 }

/-- Witness for claim C7 at the concrete valuation `vC7`. -/
theorem stab2a_signal_path_chain_witness :
    vC7.sig = vC7.te / pC7.SnSb ∧
    vC7.PK2_y = pC7.K2 * vC7.sig ∧
    vC7.WO_y = pC7.T2 * vC7.PK2_y - vC7.WO_x ∧
    vC7.V1 = vC7.WO_y ^ 3 ∧
    vC7.PK4_y = pC7.K4 * vC7.V1 ∧
    vC7.V3 = vC7.V2_y + pC7.K4 * vC7.V1 ∧
    (pC7.T3 ≠ 0 → STAB2A.V2Dot pC7 vC7 = 0 → vC7.V2_y = pC7.K3 * vC7.V1) ∧
    (pC7.T5 ≠ 0 → STAB2A.L1Dot pC7 vC7 = 0 → vC7.L1_y = pC7.K5 * vC7.V3) ∧
    vC7.V4 = vC7.L1_y ^ 2 ∧
    vC7.vsout = algeb_limiter vC7.V4 pC7.HLIM_MIN pC7.HLIM_MAX :=
  stab2a_signal_path_chain pC7 vC7
    (by norm_num [STAB2A.algebEqs, STAB2A.sigRes, STAB2A.PK2Res, STAB2A.WOyRes,
        STAB2A.V1Res, STAB2A.PK4Res, STAB2A.V3Res, STAB2A.V4Res, STAB2A.vsoutRes,
        Limiter.zl, Limiter.zi, Limiter.zu, pC7, vC7])
    (by norm_num [pC7])

/-- Claim C8: every constant Jacobian entry that `TG2` itself
registers in `jac0` equals the partial derivative (the slope — the
residuals are affine in each variable) of one of TG2's own residual
equations with respect to the entry's column variable: the two `Fx0`
entries are the partials of its `fcall` residual in `xg` and `omega`,
and the `Gx0`/`Gy0` entries are the partials of its `gcall` `pout`
residual in `xg`, `omega` and `pout`, the first two in the
within-limits branch of the limiter. -/
theorem tg2_jac0_entries_are_partials (s : TG2) :
    (JacMat.Fx0, -s.iT2, s.xg, s.xg) ∈ TG2.jac0 s ∧
    (JacMat.Fx0, -(s.iT2 * s.gain * (1 - s.T12)), s.xg, s.omega) ∈ TG2.jac0 s ∧
    (JacMat.Gx0, (1 : ℚ), s.pout, s.xg) ∈ TG2.jac0 s ∧
    (JacMat.Gx0, -(s.gain * s.T12), s.pout, s.omega) ∈ TG2.jac0 s ∧
    (JacMat.Gy0, (-1 : ℚ), s.pout, s.pout) ∈ TG2.jac0 s ∧
    (∀ dae : Dae,
      (TG2.fcall s dae).f s.xg = TG2.fres s (dae.x s.xg) (dae.x s.omega)) ∧
    (∀ dae : Dae,
      (TG2.gcall s dae).2.g s.pout =
        TG2.gresPout s (dae.x s.xg) (dae.x s.omega) (dae.y s.pout)) ∧
    (∀ xg om h : ℚ,
      TG2.fres s (xg + h) om - TG2.fres s xg om = -s.iT2 * h) ∧
    (∀ xg om h : ℚ,
      TG2.fres s xg (om + h) - TG2.fres s xg om =
        -(s.iT2 * s.gain * (1 - s.T12)) * h) ∧
    (∀ xg om po h : ℚ,
      s.pmin ≤ xg + s.pm0 + s.gain * s.T12 * (s.wref0 - om) →
      xg + s.pm0 + s.gain * s.T12 * (s.wref0 - om) ≤ s.pmax →
      s.pmin ≤ xg + h + s.pm0 + s.gain * s.T12 * (s.wref0 - om) →
      xg + h + s.pm0 + s.gain * s.T12 * (s.wref0 - om) ≤ s.pmax →
      TG2.gresPout s (xg + h) om po - TG2.gresPout s xg om po = 1 * h) ∧
    (∀ xg om po h : ℚ,
      s.pmin ≤ xg + s.pm0 + s.gain * s.T12 * (s.wref0 - om) →
      xg + s.pm0 + s.gain * s.T12 * (s.wref0 - om) ≤ s.pmax →
      s.pmin ≤ xg + s.pm0 + s.gain * s.T12 * (s.wref0 - (om + h)) →
      xg + s.pm0 + s.gain * s.T12 * (s.wref0 - (om + h)) ≤ s.pmax →
      TG2.gresPout s xg (om + h) po - TG2.gresPout s xg om po =
        -(s.gain * s.T12) * h) ∧
    (∀ xg om po h : ℚ,
      TG2.gresPout s xg om (po + h) - TG2.gresPout s xg om po = -1 * h) := by
  refine ⟨by simp [TG2.jac0, GovernorBase.jac0], by simp [TG2.jac0, GovernorBase.jac0],
    by simp [TG2.jac0, GovernorBase.jac0], by simp [TG2.jac0, GovernorBase.jac0],
    by simp [TG2.jac0, GovernorBase.jac0], ?_, ?_, ?_, ?_, ?_, ?_, ?_⟩
  · intro dae
    simp [TG2.fcall, TG2.fres, Function.update_apply]
  · intro dae
    simp [TG2.gcall, GovernorBase.gcall, TG2.gresPout, Function.update_apply]
  · intro xg om h
    simp only [TG2.fres]
    ring
  · intro xg om h
    simp only [TG2.fres]
    ring
  · intro xg om po h hl1 hu1 hl2 hu2
    simp only [TG2.gresPout]
    rw [algeb_limiter_of_mem hl2 hu2, algeb_limiter_of_mem hl1 hu1]
    ring
  · intro xg om po h hl1 hu1 hl2 hu2
    simp only [TG2.gresPout]
    rw [algeb_limiter_of_mem hl2 hu2, algeb_limiter_of_mem hl1 hu1]
    ring
  · intro xg om po h
    simp only [TG2.gresPout]
    ring

/-- Witness for claim C8: the within-limits slope hypotheses
discharged at the instance `tg2C5` and concrete points. -/
theorem tg2_jac0_entries_are_partials_witness :
    TG2.gresPout tg2C5 (1/2 + 1/10) 1 0 - TG2.gresPout tg2C5 (1/2) 1 0 = 1 * (1/10) ∧
    TG2.gresPout tg2C5 (1/2) (1 + 1/10) 0 - TG2.gresPout tg2C5 (1/2) 1 0 =
      -(tg2C5.gain * tg2C5.T12) * (1/10) :=
  ⟨(tg2_jac0_entries_are_partials tg2C5).2.2.2.2.2.2.2.2.2.1 (1/2) 1 0 (1/10)
      (by norm_num [tg2C5]) (by norm_num [tg2C5]) (by norm_num [tg2C5]) (by norm_num [tg2C5]),
   (tg2_jac0_entries_are_partials tg2C5).2.2.2.2.2.2.2.2.2.2.1 (1/2) 1 0 (1/10)
      (by norm_num [tg2C5]) (by norm_num [tg2C5]) (by norm_num [tg2C5]) (by norm_num [tg2C5])⟩

/-- A connected `TG1` instance with `pm0 = 0.5`, `gain = 20`,
`iTs = 10`, limits `[0, 1]` — service values as a completed `init1`
would leave them. -/
def tg1C9 : TG1 :=
  { pmax := 1, pmin := 0, R := 1/20, wref0 := 1, u := 1,
    wref := 0, pout := 1, omega := 3, pm := 2, Sn := 1, pm0 := 1/2, gain := 20, pin := 0,
    T3 := 0, T4 := 12, T5 := 50, Tc := 14/25, Ts := 1/10,
    iTs := 10, iTc := 25/14, iT5 := 1/50, k1 := 0, k2 := 1, k3 := 6/25, k4 := 19/25,
    xg1 := 0, xg2 := 1, xg3 := 2 }

/-- A workspace whose speed state (slot `3`) is at the reference
speed `1`. -/
def daeC9A : Dae :=
  { x := fun i => if i = 3 then 1 else 0, y := fun _ => 0,
    f := fun _ => 0, g := fun _ => 0 }

/-- Claim C9, evaluated at the failing input: after `gcall` runs at
the reference-speed workspace `daeC9A`, the `pin` service holds the
clamped power value `1/2`; the `TG1.fcall` that follows evaluates
`dae.y[self.pin]` — the algebraic vector indexed by that float value —
which raises, so `fcall` produces no derivative contribution at all
instead of purely computing one from the current state and algebraic
values. -/
theorem tg1_fcall_read_fails :
    (TG1.gcall tg1C9 daeC9A).1.pin = 1/2 ∧
    TG1.fcall (TG1.gcall tg1C9 daeC9A).1 daeC9A = none := by
  constructor
  · simp only [TG1.gcall, GovernorBase.gcall, algeb_limiter, tg1C9, daeC9A]
    norm_num
  · rfl

end Andes
